import Mathlib

/-!
Verification of the `claude_with_dr` repository (an iterative web-research
assistant) against its natural-language specification.

The development shallowly embeds the Python sources:

* `src/src/claude_deep_researcher/graph.py` — the five-node research workflow
  (nodes `generate_query`, `web_research`, `summarize_sources`,
  `reflect_on_summary`, `finalize_summary`, and the routing function
  `route_research`);
* `src/src/claude_deep_researcher/configuration.py` and
  `src/src/openai_deep_researcher/configuration.py` — the two near-identical
  configuration resolvers (`Configuration.from_runnable_config`);
* `src/app.py` — entry point A's `run_research`.

External effects (the Groq chat-completion calls and the Tavily search calls)
are modelled as oracle-supplied reply strings: the embedding covers exactly the
deterministic processing the repository performs on those replies.  Python
exceptions are modelled with an explicit error type and `Except`.

The repository files `state.py`, `utils.py`, `prompts.py` and the OpenAI-style
`graph.py` are not part of the provided sources; where a claim depends on them
(the research-state field defaults, the workflow engine's merge semantics, and
`strip_thinking_tokens`) the corresponding definitions are modelled from the
specification and are marked `Modelled from the spec:` in their doc comments.
-/

/-! ## Python-flavoured string helpers -/

/-- Characters removed by Python's `str.strip()` (ASCII whitespace; the
unicode space characters Python also strips cannot occur in the inputs this
development handles). -/
def isPySpace (c : Char) : Bool :=
  c = ' ' ∨ c = '\t' ∨ c = '\n' ∨ c = '\r' ∨ c = '\x0b' ∨ c = '\x0c'

/-- Python `s.strip()`: drop leading and trailing whitespace. -/
def pyStrip (s : String) : String :=
  String.mk (((s.data.dropWhile isPySpace).reverse.dropWhile isPySpace).reverse)

/-- `startsWithChars hay needle`: `needle` is an initial segment of `hay`. -/
def startsWithChars : List Char → List Char → Bool
  | _, [] => true
  | [], _ :: _ => false
  | c :: cs, d :: ds => c = d && startsWithChars cs ds

/-- `hasInfixChars hay needle`: `needle` occurs contiguously in `hay`. -/
def hasInfixChars : List Char → List Char → Bool
  | hay, needle =>
    if startsWithChars hay needle then true
    else
      match hay with
      | [] => false
      | _ :: t => hasInfixChars t needle

/-- `strContains s pat = true` iff `pat` occurs in `s` as a substring. -/
def strContains (s pat : String) : Bool :=
  hasInfixChars s.data pat.data

/-- Split a character list at every occurrence of the (non-empty) separator
`sep`, Python `str.split(sep)` semantics.  `fuel` bounds the recursion; each
step consumes at least one character, so `length + 1` always suffices. -/
def splitOnChars (sep : List Char) : Nat → List Char → List Char → List (List Char)
  | 0, cs, acc => [acc.reverse ++ cs]
  | fuel + 1, cs, acc =>
    if sep.isEmpty then [acc.reverse ++ cs]
    else if startsWithChars cs sep then
      match cs with
      | [] => [acc.reverse]
      | _ :: _ => acc.reverse :: splitOnChars sep fuel (cs.drop sep.length) []
    else
      match cs with
      | [] => [acc.reverse]
      | c :: rest => splitOnChars sep fuel rest (c :: acc)

/-- Python `s.split(sep)` for a non-empty separator. -/
def pySplitOn (s sep : String) : List String :=
  (splitOnChars sep.data (s.length + 1) s.data []).map String.mk

/-- Python `s.upper()` on the ASCII identifiers this code base upper-cases. -/
def pyUpper (s : String) : String :=
  String.mk (s.data.map Char.toUpper)

/-- Python `s.lower()` on ASCII input. -/
def pyLower (s : String) : String :=
  String.mk (s.data.map Char.toLower)

/-- The numeric value of a digit list. -/
def digitsToNat (ds : List Char) : Nat :=
  ds.foldl (fun n c => n * 10 + (c.toNat - '0'.toNat)) 0

/-- Parse a non-empty all-digit character list. -/
def parseNatChars (ds : List Char) : Option Nat :=
  if ds ≠ [] ∧ ds.all Char.isDigit then some (digitsToNat ds) else none

/-! ## JSON values and `json.loads`

The workflow parses language-model replies with Python's `json.loads`.  The
model below covers the JSON fragment the claims exercise: `null`, booleans,
integer numbers, strings (with the standard escapes), arrays and objects.
Floating-point literals (a fraction or exponent part) are outside the model:
the parser rejects them, and no claim depends on a reply containing one. -/

inductive JsonVal where
  | null
  | bool (b : Bool)
  | num (n : Int)
  | str (s : String)
  | arr (elems : List JsonVal)
  | obj (members : List (String × JsonVal))

/-- Python `dict` built from a JSON object keeps the last occurrence of a
duplicated key, so lookups read the member list from the right. -/
def JsonVal.objGet (members : List (String × JsonVal)) (k : String) : Option JsonVal :=
  members.reverse.lookup k

/-- Modelled Python exceptions raised by the embedded code. -/
inductive PyErr where
  | valueError (msg : String)
  | typeError (msg : String)
  | keyError (msg : String)
  | attributeError (msg : String)
  | exception (msg : String)
deriving DecidableEq, Repr

/-- Python subscription `v[k]` with a string key: succeeds only on a dict
(`KeyError` when the key is absent); every other JSON value raises
`TypeError`. -/
def pyGetItem : JsonVal → String → Except PyErr JsonVal
  | .obj kvs, k =>
    match JsonVal.objGet kvs k with
    | some v => .ok v
    | none => .error (.keyError k)
  | .str _, _ => .error (.typeError "string indices must be integers")
  | .arr _, _ => .error (.typeError "list indices must be integers or slices, not str")
  | .num _, _ => .error (.typeError "int object is not subscriptable")
  | .bool _, _ => .error (.typeError "bool object is not subscriptable")
  | .null, _ => .error (.typeError "NoneType object is not subscriptable")

/-- Python `v.get(k)`: defined only on dicts (returns `None` for a missing
key); every other JSON value raises `AttributeError`. -/
def pyGetMethod : JsonVal → String → Except PyErr (Option JsonVal)
  | .obj kvs, k => .ok (JsonVal.objGet kvs k)
  | _, _ => .error (.attributeError "object has no attribute get")

/-- Python truthiness of a JSON-decoded value (`if not query: ...`). -/
def pyTruthy : JsonVal → Bool
  | .null => false
  | .bool b => b
  | .num n => n ≠ 0
  | .str s => s ≠ ""
  | .arr xs => ¬xs.isEmpty
  | .obj kvs => ¬kvs.isEmpty

/-- JSON insignificant whitespace. -/
def isJsonWs (c : Char) : Bool :=
  c = ' ' ∨ c = '\t' ∨ c = '\n' ∨ c = '\r'

def skipWs (cs : List Char) : List Char :=
  cs.dropWhile isJsonWs

/-- Decode one hex digit. -/
def hexDigit (c : Char) : Option Nat :=
  if '0' ≤ c ∧ c ≤ '9' then some (c.toNat - '0'.toNat)
  else if 'a' ≤ c ∧ c ≤ 'f' then some (c.toNat - 'a'.toNat + 10)
  else if 'A' ≤ c ∧ c ≤ 'F' then some (c.toNat - 'A'.toNat + 10)
  else none

/-- Parse the body of a JSON string (the opening quote already consumed),
returning the decoded string and the remaining input.  Raw control
characters are rejected, as `json.loads` does in its default strict mode. -/
def parseJString : List Char → Option (String × List Char)
  | [] => none
  | '"' :: rest => some ("", rest)
  | '\\' :: e :: rest =>
    match e with
    | '"' => (parseJString rest).map (fun p => (⟨'"' :: p.1.data⟩, p.2))
    | '\\' => (parseJString rest).map (fun p => (⟨'\\' :: p.1.data⟩, p.2))
    | '/' => (parseJString rest).map (fun p => (⟨'/' :: p.1.data⟩, p.2))
    | 'b' => (parseJString rest).map (fun p => (⟨'\x08' :: p.1.data⟩, p.2))
    | 'f' => (parseJString rest).map (fun p => (⟨'\x0c' :: p.1.data⟩, p.2))
    | 'n' => (parseJString rest).map (fun p => (⟨'\n' :: p.1.data⟩, p.2))
    | 'r' => (parseJString rest).map (fun p => (⟨'\r' :: p.1.data⟩, p.2))
    | 't' => (parseJString rest).map (fun p => (⟨'\t' :: p.1.data⟩, p.2))
    | 'u' =>
      match rest with
      | h1 :: h2 :: h3 :: h4 :: rest' =>
        match hexDigit h1, hexDigit h2, hexDigit h3, hexDigit h4 with
        | some a, some b, some c, some d =>
          let n := ((a * 16 + b) * 16 + c) * 16 + d
          if h : n.isValidChar then
            (parseJString rest').map (fun p => (⟨Char.ofNatAux n h :: p.1.data⟩, p.2))
          else none
        | _, _, _, _ => none
      | _ => none
    | _ => none
  | c :: rest =>
    if c.toNat < 0x20 then none
    else (parseJString rest).map (fun p => (⟨c :: p.1.data⟩, p.2))

/-- Parse a JSON number.  Only integers are in the modelled fragment: a
fraction or exponent part makes the parse fail (see the module comment). -/
def parseJNumber (cs : List Char) : Option (JsonVal × List Char) :=
  let (neg, cs') := match cs with
    | '-' :: rest => (true, rest)
    | _ => (false, cs)
  let digits := cs'.takeWhile Char.isDigit
  let rest := cs'.dropWhile Char.isDigit
  if digits.isEmpty then none
  else if digits.length > 1 ∧ digits.headD '0' = '0' then none
  else
    match rest with
    | '.' :: _ => none
    | 'e' :: _ => none
    | 'E' :: _ => none
    | _ =>
      let n : Nat := digits.foldl (fun acc c => acc * 10 + (c.toNat - '0'.toNat)) 0
      some (.num (if neg then -(n : Int) else (n : Int)), rest)

mutual

/-- Parse one JSON value from the input (fuelled recursion). -/
def parseJValue : Nat → List Char → Option (JsonVal × List Char)
  | 0, _ => none
  | fuel + 1, cs =>
    match skipWs cs with
    | '{' :: rest => parseJMembers fuel rest [] true
    | '[' :: rest => parseJElems fuel rest [] true
    | '"' :: rest => (parseJString rest).map (fun p => (.str p.1, p.2))
    | 't' :: 'r' :: 'u' :: 'e' :: rest => some (.bool true, rest)
    | 'f' :: 'a' :: 'l' :: 's' :: 'e' :: rest => some (.bool false, rest)
    | 'n' :: 'u' :: 'l' :: 'l' :: rest => some (.null, rest)
    | cs' => parseJNumber cs'

/-- Parse the elements of a JSON array after the opening bracket. -/
def parseJElems : Nat → List Char → List JsonVal → Bool → Option (JsonVal × List Char)
  | 0, _, _, _ => none
  | fuel + 1, cs, acc, first =>
    match skipWs cs with
    | ']' :: rest => if first then some (.arr [], rest) else none
    | cs' =>
      match parseJValue fuel cs' with
      | none => none
      | some (v, rest) =>
        match skipWs rest with
        | ',' :: rest' => parseJElems fuel rest' (acc ++ [v]) false
        | ']' :: rest' => some (.arr (acc ++ [v]), rest')
        | _ => none

/-- Parse the members of a JSON object after the opening brace. -/
def parseJMembers : Nat → List Char → List (String × JsonVal) → Bool →
    Option (JsonVal × List Char)
  | 0, _, _, _ => none
  | fuel + 1, cs, acc, first =>
    match skipWs cs with
    | '}' :: rest => if first then some (.obj [], rest) else none
    | '"' :: rest =>
      match parseJString rest with
      | none => none
      | some (k, rest') =>
        match skipWs rest' with
        | ':' :: rest'' =>
          match parseJValue fuel rest'' with
          | none => none
          | some (v, rest''') =>
            match skipWs rest''' with
            | ',' :: more => parseJMembers fuel more (acc ++ [(k, v)]) false
            | '}' :: more => some (.obj (acc ++ [(k, v)]), more)
            | _ => none
        | _ => none
    | _ => none

end

/-- Python `json.loads` on the modelled JSON fragment: `none` stands for a
raised `json.JSONDecodeError`. -/
def json_loads (s : String) : Option JsonVal :=
  match parseJValue (2 * s.length + 8) s.data with
  | some (v, rest) => if (skipWs rest).isEmpty then some v else none
  | none => none

/-! ## Thinking-token stripping (utility layer) -/

/-- One removal pass: if the text contains a `<think>` marker followed by a
`</think>` marker, remove the first such span together with its content. -/
def stripThinkOnce (s : String) : Option String :=
  match pySplitOn s "<think>" with
  | pre :: restParts =>
    if restParts.isEmpty then none
    else
      let after := String.intercalate "<think>" restParts
      match pySplitOn after "</think>" with
      | _ :: tailParts =>
        if tailParts.isEmpty then none
        else some (pre ++ String.intercalate "</think>" tailParts)
      | [] => none
  | [] => none

def stripThinkLoop : Nat → String → String
  | 0, s => s
  | fuel + 1, s =>
    match stripThinkOnce s with
    | some s' => stripThinkLoop fuel s'
    | none => s

/-- Modelled from the spec: `strip_thinking_tokens` is defined in
`src/claude_deep_researcher/utils.py`, which is not among the provided
sources.  Spec §4.3: "removes any span delimited by a pair of 'thinking'
markers (opening/closing tags) together with its enclosed content, returning
the remaining visible text with surrounding whitespace trimmed", and spec
§8.7 fixes the markers as `<think>`/`</think>`. -/
def strip_thinking_tokens (s : String) : String :=
  pyStrip (stripThinkLoop (s.length + 1) s)

/-! ## Workflow node post-processing (claude_deep_researcher/graph.py)

Each node issues one network call (chat completion or web search) and then
deterministically processes the reply; the embedding takes the raw reply as
an argument and models that processing.  The node's returned state update is
a record mirroring the Python dict it returns. -/

namespace claude_deep_researcher

/-- The resolved configuration record
(`claude_deep_researcher/configuration.py`, class `Configuration`), with the
source's field defaults.  `temperature` is ℚ in place of Python's float: every
value the claims exercise is an exact decimal. -/
structure Configuration where
  max_web_research_loops : Int := 3
  groq_model : String := "llama-3.3-70b-versatile"
  groq_api_key : Option String := none
  search_api : String := "tavily"
  fetch_full_page : Bool := true
  temperature : ℚ := 0
  strip_thinking_tokens : Bool := true
deriving DecidableEq, Repr

/-- A node's returned state update: the dict a LangGraph node returns.
`none` / `[]` mean the key is absent from the returned dict. -/
structure NodeUpdate where
  search_query : Option JsonVal := none
  research_loop_count : Option Nat := none
  web_research_results : List String := []
  sources_gathered : List String := []
  running_summary : Option String := none

/-- `generate_query` (graph.py lines 67–79), given the chat reply `content`:

v = `try: query = json.loads(content); search_query = query['query']`
`except (json.JSONDecodeError, KeyError):` strip (if configured) and use the
raw text.  A `TypeError` from subscripting a non-dict JSON value is not in
the except clause and propagates. -/
def generate_query (configurable : Configuration) (content : String) :
    Except PyErr NodeUpdate :=
  let fallback : NodeUpdate :=
    { search_query := some (.str (if configurable.strip_thinking_tokens then
        strip_thinking_tokens content else content)) }
  match json_loads content with
  | none => .ok fallback
  | some query =>
    match pyGetItem query "query" with
    | .ok v => .ok { search_query := some v }
    | .error (.keyError _) => .ok fallback
    | .error e => .error e

/-- `web_research` (graph.py lines 94–113): the Tavily call and the two
formatting utilities are abstracted as the already-formatted strings
`citationBlock` (`format_sources(search_results)`) and `contextBlock`
(`deduplicate_and_format_sources(...)`).  The node returns a singleton list
for each sequence field and the incremented loop counter. -/
def web_research (citationBlock contextBlock : String)
    (research_loop_count : Nat) : NodeUpdate :=
  { sources_gathered := [citationBlock],
    research_loop_count := some (research_loop_count + 1),
    web_research_results := [contextBlock] }

/-- `summarize_sources` (graph.py lines 167–172): the chat reply, optionally
thinking-token-stripped, replaces the running summary. -/
def summarize_sources (configurable : Configuration) (content : String) :
    NodeUpdate :=
  { running_summary := some (if configurable.strip_thinking_tokens then
      strip_thinking_tokens content else content) }

/-- `reflect_on_summary` (graph.py lines 208–224), given the chat reply:
parse as JSON, read `follow_up_query` via `.get`, fall back to
`"Tell me more about {research_topic}"` when parsing fails
(`json.JSONDecodeError`/`KeyError`/`AttributeError` are all caught) or the
field is missing or falsy. -/
def reflect_on_summary (research_topic : String) (content : String) :
    NodeUpdate :=
  let fallback : NodeUpdate :=
    { search_query := some (.str ("Tell me more about " ++ research_topic)) }
  match json_loads content with
  | none => fallback
  | some reflection_content =>
    match pyGetMethod reflection_content "follow_up_query" with
    | .error _ => fallback
    | .ok none => fallback
    | .ok (some query) =>
      if pyTruthy query then { search_query := some query } else fallback

/-- The deduplication loop of `finalize_summary` (graph.py lines 240–250):
split every gathered source block into lines, keep a line when it is
non-blank after stripping and has not been seen before.  The Python code
tracks `seen_sources` (a set) and `unique_sources` (a list) with identical
contents, so membership is checked against the accumulator list. -/
def sourceLineStep (acc : List String) (line : String) : List String :=
  if pyStrip line ≠ "" ∧ line ∉ acc then acc ++ [line] else acc

def uniqueSourceLines (sources_gathered : List String) : List String :=
  sources_gathered.foldl (fun acc source =>
    (pySplitOn source "\n").foldl sourceLineStep acc) []

/-- Python's rendering of the running summary inside the final f-string
(`f"## Summary\n{state.running_summary}..."`): an absent summary prints as
`"None"`. -/
def pyShowOptStr : Option String → String
  | some s => s
  | none => "None"

/-- `finalize_summary` (graph.py lines 240–255): rewrite the running summary
to the final report template over the deduplicated source lines. -/
def finalize_summary (running_summary : Option String)
    (sources_gathered : List String) : String :=
  let all_sources := String.intercalate "\n" (uniqueSourceLines sources_gathered)
  "## Summary\n" ++ pyShowOptStr running_summary ++ "\n\n ### Sources:\n" ++ all_sources

end claude_deep_researcher

namespace claude_deep_researcher

/-- Modelled from the spec: the `SummaryState` record is defined in
`src/claude_deep_researcher/state.py`, which is not among the provided
sources.  Field set and defaults follow spec §3/§4.2: `research_loop_count`
starts at 0, the two sequences start empty, `running_summary` starts absent.
`search_query` is held as a `JsonVal` because the source's `generate_query`
and `reflect_on_summary` can yield a non-string JSON value for it; the spec
types it as a string (`JsonVal.str`) in every normal run. -/
structure SummaryState where
  research_topic : String := ""
  search_query : JsonVal := .str ""
  research_loop_count : Nat := 0
  web_research_results : List String := []
  sources_gathered : List String := []
  running_summary : Option String := none

/-- Modelled from the spec: the workflow engine's merge of a node's returned
dict into the shared state (spec §3): "sequence-typed fields
(`web_research_results`, `sources_gathered`) are appended to; scalar fields
(`search_query`, `research_loop_count`, `running_summary`) are replaced". -/
def mergeUpdate (s : SummaryState) (u : NodeUpdate) : SummaryState :=
  { s with
    search_query := u.search_query.getD s.search_query
    research_loop_count := u.research_loop_count.getD s.research_loop_count
    web_research_results := s.web_research_results ++ u.web_research_results
    sources_gathered := s.sources_gathered ++ u.sources_gathered
    running_summary := match u.running_summary with
      | some v => some v
      | none => s.running_summary }

/-- `route_research` (graph.py lines 271–275): continue to `web_research`
while `research_loop_count <= max_web_research_loops`, else go to
`finalize_summary`. -/
def route_research (state : SummaryState) (configurable : Configuration) : String :=
  if (state.research_loop_count : Int) ≤ configurable.max_web_research_loops then
    "web_research"
  else
    "finalize_summary"

/-- The graph's node set (graph.py lines 278–291), plus the LangGraph
`START`/`END` markers. -/
inductive Node where
  | START
  | generate_query
  | web_research
  | summarize_sources
  | reflect_on_summary
  | finalize_summary
  | END
deriving DecidableEq, Repr

/-- The oracle supplying every external reply a run consumes: the
query-writer chat reply, and — indexed by the loop count at the moment of
the call — the formatted Tavily citation/context blocks, the summarizer
reply and the reflection reply. -/
structure Oracle where
  genReply : String
  citationBlock : Nat → String
  contextBlock : Nat → String
  summReply : Nat → String
  reflReply : Nat → String

/-- One transition of the compiled graph: execute the node just entered,
merge its update, and follow the (conditional) edge (graph.py lines
286–291).  The conditional edge evaluates `route_research` on the state
already containing `reflect_on_summary`'s update. -/
def stepGraph (configurable : Configuration) (o : Oracle) :
    Node → SummaryState → Except PyErr (Node × SummaryState)
  | .START, s => .ok (.generate_query, s)
  | .generate_query, s =>
    (generate_query configurable o.genReply).map
      (fun u => (.web_research, mergeUpdate s u))
  | .web_research, s =>
    .ok (.summarize_sources, mergeUpdate s
      (web_research (o.citationBlock s.research_loop_count)
        (o.contextBlock s.research_loop_count) s.research_loop_count))
  | .summarize_sources, s =>
    .ok (.reflect_on_summary, mergeUpdate s
      (summarize_sources configurable (o.summReply s.research_loop_count)))
  | .reflect_on_summary, s =>
    let s' := mergeUpdate s
      (reflect_on_summary s.research_topic (o.reflReply s.research_loop_count))
    .ok (if route_research s' configurable = "web_research" then
      (.web_research, s') else (.finalize_summary, s'))
  | .finalize_summary, s =>
    .ok (.END, mergeUpdate s
      { running_summary := some (finalize_summary s.running_summary s.sources_gathered) })
  | .END, s => .ok (.END, s)

/-- Run the graph for `n` transitions from the fresh initial state built
from the caller's topic, recording the sequence of nodes entered. -/
def runTrace (configurable : Configuration) (o : Oracle) (topic : String) :
    Nat → Except PyErr (Node × SummaryState × List Node)
  | 0 => .ok (.START, { research_topic := topic }, [.START])
  | n + 1 =>
    match runTrace configurable o topic n with
    | .error e => .error e
    | .ok (node, s, tr) =>
      match stepGraph configurable o node s with
      | .error e => .error e
      | .ok (node', s') => .ok (node', s', tr ++ [node'])

end claude_deep_researcher

/-! ## Configuration resolution (configuration.py, both variants)

`Configuration.from_runnable_config` reads, for every declared field, the
environment variable named by upper-casing the field name, falling back to
the `configurable` override map; a raw string from the environment is then
coerced by pydantic to the field's declared type.  Override-map values are
modelled by `CVal`; an override explicitly set to Python `None` behaves
exactly like an absent key throughout (`dict.get`), so it is modelled as an
absent key. -/

inductive CVal where
  | s (v : String)
  | i (v : Int)
  | r (v : ℚ)
  | b (v : Bool)
deriving DecidableEq, Repr

/-- An environment: `none` is an unset variable (`os.environ.get`). -/
def Env : Type := String → Option String

/-- pydantic str→int coercion: trimmed decimal integer with optional sign. -/
def parsePyInt (s : String) : Option Int :=
  let t := (pyStrip s).data
  let (neg, t) := match t with
    | '-' :: rest => (true, rest)
    | '+' :: rest => (false, rest)
    | _ => (false, t)
  match parseNatChars t with
  | some n => some (if neg then -(n : Int) else (n : Int))
  | none => none

/-- pydantic str→float coercion on plain decimal literals (an optional sign,
digits, an optional fractional part).  Exponent and special forms are outside
the modelled fragment; no claim exercises them. -/
def parsePyFloat (s : String) : Option ℚ :=
  let t := (pyStrip s).data
  let (neg, t) := match t with
    | '-' :: rest => (true, rest)
    | '+' :: rest => (false, rest)
    | _ => (false, t)
  let signed : ℚ → ℚ := fun q => if neg then -q else q
  match splitOnChars ['.'] (t.length + 1) t [] with
  | [a] => (parseNatChars a).map (fun n => signed n)
  | [a, b] =>
    if a.isEmpty ∧ b.isEmpty then none
    else
      match (if a.isEmpty then some 0 else parseNatChars a),
            (if b.isEmpty then some 0 else parseNatChars b) with
      | some n, some f => some (signed ((n : ℚ) + (f : ℚ) / ((10 : ℚ) ^ b.length)))
      | _, _ => none
  | _ => none

/-- pydantic str→bool coercion (case-insensitive token set). -/
def parsePyBool (s : String) : Option Bool :=
  let t := pyLower (pyStrip s)
  if t = "true" ∨ t = "t" ∨ t = "yes" ∨ t = "y" ∨ t = "on" ∨ t = "1" then some true
  else if t = "false" ∨ t = "f" ∨ t = "no" ∨ t = "n" ∨ t = "off" ∨ t = "0" then some false
  else none

/-- Validate/coerce a raw value into an `int` field. -/
def coerceInt (v : Option CVal) (dflt : Int) : Except PyErr Int :=
  match v with
  | none => .ok dflt
  | some (.i n) => .ok n
  | some (.s s) =>
    match parsePyInt s with
    | some n => .ok n
    | none => .error (.valueError "validation error: int expected")
  | some (.b b) => .ok (if b then 1 else 0)
  | some (.r q) => if q.den = 1 then .ok q.num else
      .error (.valueError "validation error: int expected")

/-- Validate/coerce a raw value into a `float` field (modelled as ℚ). -/
def coerceFloat (v : Option CVal) (dflt : ℚ) : Except PyErr ℚ :=
  match v with
  | none => .ok dflt
  | some (.r q) => .ok q
  | some (.i n) => .ok (n : ℚ)
  | some (.s s) =>
    match parsePyFloat s with
    | some q => .ok q
    | none => .error (.valueError "validation error: float expected")
  | some (.b _) => .error (.valueError "validation error: float expected")

/-- Validate a raw value for a `str` field (pydantic does not coerce
non-strings to `str`). -/
def coerceStr (v : Option CVal) (dflt : String) : Except PyErr String :=
  match v with
  | none => .ok dflt
  | some (.s s) => .ok s
  | some _ => .error (.valueError "validation error: str expected")

/-- Validate a raw value for an `Optional[str]` field. -/
def coerceOptStr (v : Option CVal) : Except PyErr (Option String) :=
  match v with
  | none => .ok none
  | some (.s s) => .ok (some s)
  | some _ => .error (.valueError "validation error: str expected")

/-- Validate a raw value for the `Literal["tavily"]` field. -/
def coerceTavily (v : Option CVal) : Except PyErr String :=
  match v with
  | none => .ok "tavily"
  | some (.s "tavily") => .ok "tavily"
  | some _ => .error (.valueError "validation error: tavily expected")

/-- Validate/coerce a raw value into a `bool` field. -/
def coerceBool (v : Option CVal) (dflt : Bool) : Except PyErr Bool :=
  match v with
  | none => .ok dflt
  | some (.b b) => .ok b
  | some (.s s) =>
    match parsePyBool s with
    | some b => .ok b
    | none => .error (.valueError "validation error: bool expected")
  | some (.i n) =>
    if n = 0 then .ok false else if n = 1 then .ok true else
      .error (.valueError "validation error: bool expected")
  | some (.r _) => .error (.valueError "validation error: bool expected")

/-- The raw per-field lookup of `from_runnable_config` (both variants,
configuration.py line 61): `os.environ.get(name.upper(), configurable.get(name))`
— the environment variable named by upper-casing the field name takes
precedence, the override map is consulted only when it is unset. -/
def rawLookup (env : Env) (configurable : List (String × CVal)) (name : String) :
    Option CVal :=
  match env (pyUpper name) with
  | some v => some (.s v)
  | none => configurable.lookup name

/-- Python `raw_values.get(k)` on the raw-values dict, conflating an absent
key with a key held at `None`. -/
def rawGet (raw : List (String × Option CVal)) (k : String) : Option CVal :=
  (raw.lookup k).join

/-- Python `raw_values[k] = v`: replace the first binding of `k`, or append
it when absent. -/
def rawSet (raw : List (String × Option CVal)) (k : String) (v : Option CVal) :
    List (String × Option CVal) :=
  match raw with
  | [] => [(k, v)]
  | (k', v') :: rest =>
    if k' = k then (k, v) :: rest else (k', v') :: rawSet rest k v

namespace claude_deep_researcher

/-- `Configuration.model_fields.keys()` for the Groq-style variant, in
declaration order.  `openai_api_key` is not among them. -/
def model_fields : List String :=
  ["max_web_research_loops", "groq_model", "groq_api_key", "search_api",
   "fetch_full_page", "temperature", "strip_thinking_tokens"]

/-- The pydantic construction `cls(**values)` where `values` is the raw dict
with `None` entries dropped: each declared field is coerced from its raw
value when present (an absent or `None` raw value leaves the field default),
and extra keys — here the `"openai_api_key"` entry the resolver may add — are
ignored, pydantic's default `extra="ignore"` behaviour. -/
def mkConfiguration (raw : List (String × Option CVal)) : Except PyErr Configuration :=
  match coerceInt (rawGet raw "max_web_research_loops") 3,
        coerceStr (rawGet raw "groq_model") "llama-3.3-70b-versatile",
        coerceOptStr (rawGet raw "groq_api_key"),
        coerceTavily (rawGet raw "search_api"),
        coerceBool (rawGet raw "fetch_full_page") true,
        coerceFloat (rawGet raw "temperature") 0,
        coerceBool (rawGet raw "strip_thinking_tokens") true with
  | .ok a, .ok b, .ok c, .ok d, .ok e, .ok f, .ok g => .ok ⟨a, b, c, d, e, f, g⟩
  | _, _, _, _, _, _, _ => .error (.valueError "validation error")

/-- `Configuration.from_runnable_config` (claude variant, configuration.py
lines 50–72): build the raw-values dict over the declared fields, apply the
hardcoded `OPENAI_API_KEY` fallback for the `"openai_api_key"` key (absent
from this variant's fields, so the assignment adds an extra dict entry), and
construct. -/
def from_runnable_config (env : Env) (configurable : List (String × CVal)) :
    Except PyErr Configuration :=
  let raw_values := model_fields.map (fun n => (n, rawLookup env configurable n))
  let raw_values :=
    if (rawGet raw_values "openai_api_key").isNone then
      rawSet raw_values "openai_api_key" ((env "OPENAI_API_KEY").map CVal.s)
    else raw_values
  mkConfiguration raw_values

end claude_deep_researcher

namespace openai_deep_researcher

/-- The resolved configuration record
(`openai_deep_researcher/configuration.py`, class `Configuration`), with the
source's field defaults. -/
structure Configuration where
  max_web_research_loops : Int := 3
  openai_model : String := "gpt-4"
  openai_api_key : Option String := none
  search_api : String := "tavily"
  fetch_full_page : Bool := true
  temperature : ℚ := 0
  strip_thinking_tokens : Bool := true
deriving DecidableEq, Repr

/-- `Configuration.model_fields.keys()` for the OpenAI-style variant, in
declaration order.  `groq_model` is not among them. -/
def model_fields : List String :=
  ["max_web_research_loops", "openai_model", "openai_api_key", "search_api",
   "fetch_full_page", "temperature", "strip_thinking_tokens"]

/-- The pydantic construction `cls(**values)` for the OpenAI-style variant
(see `claude_deep_researcher.mkConfiguration`). -/
def mkConfiguration (raw : List (String × Option CVal)) : Except PyErr Configuration :=
  match coerceInt (rawGet raw "max_web_research_loops") 3,
        coerceStr (rawGet raw "openai_model") "gpt-4",
        coerceOptStr (rawGet raw "openai_api_key"),
        coerceTavily (rawGet raw "search_api"),
        coerceBool (rawGet raw "fetch_full_page") true,
        coerceFloat (rawGet raw "temperature") 0,
        coerceBool (rawGet raw "strip_thinking_tokens") true with
  | .ok a, .ok b, .ok c, .ok d, .ok e, .ok f, .ok g => .ok ⟨a, b, c, d, e, f, g⟩
  | _, _, _, _, _, _, _ => .error (.valueError "validation error")

/-- `Configuration.from_runnable_config` (openai variant, configuration.py
lines 50–72): identical algorithm; here `"openai_api_key"` is a declared
field, so the fallback assignment replaces its raw entry in place. -/
def from_runnable_config (env : Env) (configurable : List (String × CVal)) :
    Except PyErr Configuration :=
  let raw_values := model_fields.map (fun n => (n, rawLookup env configurable n))
  let raw_values :=
    if (rawGet raw_values "openai_api_key").isNone then
      rawSet raw_values "openai_api_key" ((env "OPENAI_API_KEY").map CVal.s)
    else raw_values
  mkConfiguration raw_values

end openai_deep_researcher

/-! ## Entry point A (`app.py`) -/

/-- The `configurable` map built by `run_research` (app.py lines 39–47):
note the model override travels under the key `"groq_model"` while the
invoked workflow variant's configuration declares `openai_model`. -/
def app_configurable : List (String × CVal) :=
  [("groq_model", .s "llama-3.3-70b-versatile"),
   ("temperature", .r (1 / 10)),
   ("max_web_research_loops", .i 3),
   ("fetch_full_page", .b true),
   ("strip_thinking_tokens", .b true)]

/-- Python truthiness of `os.getenv(...)`: falsy when the variable is unset
or set to the empty string. -/
def envTruthy : Option String → Bool
  | none => false
  | some s => s ≠ ""

/-- `run_research` (app.py lines 30–61).  The environment is taken as given
after `load_dotenv()`.  The whole of `graph.invoke` — network calls
included — is abstracted as `invokeResult : Except String String`, the
`running_summary` it produces or the message of the exception it raises; the
key-validation code runs before that oracle is ever consulted. -/
def run_research (env : Env) (invokeResult : Except String String) :
    Except PyErr String :=
  if ¬ envTruthy (env "GROQ_API_KEY") then
    .error (.valueError
      "GROQ_API_KEY environment variable is not set. Please set your Groq API key.")
  else if ¬ envTruthy (env "TAVILY_API_KEY") then
    .error (.valueError
      "TAVILY_API_KEY environment variable is not set. Please set your Tavily API key.")
  else
    match invokeResult with
    | .ok summary => .ok summary
    | .error msg => .error (.exception ("Research failed: " ++ msg))

/-! ## Shared lemmas -/

theorem rawLookup_env_some {env : Env} (cfgMap : List (String × CVal))
    {n N v : String} (hN : pyUpper n = N) (hE : env N = some v) :
    rawLookup env cfgMap n = some (.s v) := by
  unfold rawLookup
  rw [hN, hE]

theorem rawLookup_env_none {env : Env} (cfgMap : List (String × CVal))
    {n N : String} (hN : pyUpper n = N) (hE : env N = none) :
    rawLookup env cfgMap n = cfgMap.lookup n := by
  unfold rawLookup
  rw [hN, hE]

/-- `from_runnable_config` for the Groq-style variant, with the raw-values
dict spelled out: the `"openai_api_key"` key is never among this variant's
fields, so the hardcoded fallback always appends an extra entry. -/
theorem claude_frc_raw (env : Env) (cfgMap : List (String × CVal)) :
    claude_deep_researcher.from_runnable_config env cfgMap =
      claude_deep_researcher.mkConfiguration
        [("max_web_research_loops", rawLookup env cfgMap "max_web_research_loops"),
         ("groq_model", rawLookup env cfgMap "groq_model"),
         ("groq_api_key", rawLookup env cfgMap "groq_api_key"),
         ("search_api", rawLookup env cfgMap "search_api"),
         ("fetch_full_page", rawLookup env cfgMap "fetch_full_page"),
         ("temperature", rawLookup env cfgMap "temperature"),
         ("strip_thinking_tokens", rawLookup env cfgMap "strip_thinking_tokens"),
         ("openai_api_key", (env "OPENAI_API_KEY").map CVal.s)] := rfl

theorem claude_mk_temperature {raw : List (String × Option CVal)}
    {c : claude_deep_researcher.Configuration}
    (h : claude_deep_researcher.mkConfiguration raw = .ok c) :
    coerceFloat (rawGet raw "temperature") 0 = .ok c.temperature := by
  unfold claude_deep_researcher.mkConfiguration at h
  rcases hA : coerceInt (rawGet raw "max_web_research_loops") 3 with eA | a <;> rw [hA] at h
  · simp at h
  rcases hB : coerceStr (rawGet raw "groq_model") "llama-3.3-70b-versatile" with eB | b <;>
    rw [hB] at h
  · simp at h
  rcases hC : coerceOptStr (rawGet raw "groq_api_key") with eC | k <;> rw [hC] at h
  · simp at h
  rcases hD : coerceTavily (rawGet raw "search_api") with eD | d <;> rw [hD] at h
  · simp at h
  rcases hE : coerceBool (rawGet raw "fetch_full_page") true with eE | e <;> rw [hE] at h
  · simp at h
  rcases hF : coerceFloat (rawGet raw "temperature") 0 with eF | f <;> rw [hF] at h
  · simp at h
  rcases hG : coerceBool (rawGet raw "strip_thinking_tokens") true with eG | g <;> rw [hG] at h
  · simp at h
  simp at h
  rw [← h]

theorem claude_mk_groq_api_key {raw : List (String × Option CVal)}
    {c : claude_deep_researcher.Configuration}
    (h : claude_deep_researcher.mkConfiguration raw = .ok c) :
    coerceOptStr (rawGet raw "groq_api_key") = .ok c.groq_api_key := by
  unfold claude_deep_researcher.mkConfiguration at h
  rcases hA : coerceInt (rawGet raw "max_web_research_loops") 3 with eA | a <;> rw [hA] at h
  · simp at h
  rcases hB : coerceStr (rawGet raw "groq_model") "llama-3.3-70b-versatile" with eB | b <;>
    rw [hB] at h
  · simp at h
  rcases hC : coerceOptStr (rawGet raw "groq_api_key") with eC | k <;> rw [hC] at h
  · simp at h
  rcases hD : coerceTavily (rawGet raw "search_api") with eD | d <;> rw [hD] at h
  · simp at h
  rcases hE : coerceBool (rawGet raw "fetch_full_page") true with eE | e <;> rw [hE] at h
  · simp at h
  rcases hF : coerceFloat (rawGet raw "temperature") 0 with eF | f <;> rw [hF] at h
  · simp at h
  rcases hG : coerceBool (rawGet raw "strip_thinking_tokens") true with eG | g <;> rw [hG] at h
  · simp at h
  simp at h
  rw [← h]

theorem openai_mk_temperature {raw : List (String × Option CVal)}
    {c : openai_deep_researcher.Configuration}
    (h : openai_deep_researcher.mkConfiguration raw = .ok c) :
    coerceFloat (rawGet raw "temperature") 0 = .ok c.temperature := by
  unfold openai_deep_researcher.mkConfiguration at h
  rcases hA : coerceInt (rawGet raw "max_web_research_loops") 3 with eA | a <;> rw [hA] at h
  · simp at h
  rcases hB : coerceStr (rawGet raw "openai_model") "gpt-4" with eB | b <;> rw [hB] at h
  · simp at h
  rcases hC : coerceOptStr (rawGet raw "openai_api_key") with eC | k <;> rw [hC] at h
  · simp at h
  rcases hD : coerceTavily (rawGet raw "search_api") with eD | d <;> rw [hD] at h
  · simp at h
  rcases hE : coerceBool (rawGet raw "fetch_full_page") true with eE | e <;> rw [hE] at h
  · simp at h
  rcases hF : coerceFloat (rawGet raw "temperature") 0 with eF | f <;> rw [hF] at h
  · simp at h
  rcases hG : coerceBool (rawGet raw "strip_thinking_tokens") true with eG | g <;> rw [hG] at h
  · simp at h
  simp at h
  rw [← h]

theorem openai_mk_model {raw : List (String × Option CVal)}
    {c : openai_deep_researcher.Configuration}
    (h : openai_deep_researcher.mkConfiguration raw = .ok c) :
    coerceStr (rawGet raw "openai_model") "gpt-4" = .ok c.openai_model := by
  unfold openai_deep_researcher.mkConfiguration at h
  rcases hA : coerceInt (rawGet raw "max_web_research_loops") 3 with eA | a <;> rw [hA] at h
  · simp at h
  rcases hB : coerceStr (rawGet raw "openai_model") "gpt-4" with eB | b <;> rw [hB] at h
  · simp at h
  rcases hC : coerceOptStr (rawGet raw "openai_api_key") with eC | k <;> rw [hC] at h
  · simp at h
  rcases hD : coerceTavily (rawGet raw "search_api") with eD | d <;> rw [hD] at h
  · simp at h
  rcases hE : coerceBool (rawGet raw "fetch_full_page") true with eE | e <;> rw [hE] at h
  · simp at h
  rcases hF : coerceFloat (rawGet raw "temperature") 0 with eF | f <;> rw [hF] at h
  · simp at h
  rcases hG : coerceBool (rawGet raw "strip_thinking_tokens") true with eG | g <;> rw [hG] at h
  · simp at h
  simp at h
  rw [← h]

/-- When the override map holds no `"openai_api_key"` key, that field's raw
lookup in the OpenAI-style resolver reduces to the environment variable
alone. -/
theorem rawLookup_openai_key (env : Env) (cfgMap : List (String × CVal))
    (h : cfgMap.lookup "openai_api_key" = none) :
    rawLookup env cfgMap "openai_api_key" = (env "OPENAI_API_KEY").map CVal.s := by
  unfold rawLookup
  rw [show pyUpper "openai_api_key" = "OPENAI_API_KEY" from rfl]
  cases env "OPENAI_API_KEY" <;> simp [h]

/-- `from_runnable_config` for the OpenAI-style variant with the raw-values
dict spelled out, for override maps without an `"openai_api_key"` key: the
hardcoded fallback replaces that field's raw entry by the `OPENAI_API_KEY`
environment value (a no-op replacement when the variable is also unset). -/
theorem openai_frc_raw (env : Env) (cfgMap : List (String × CVal))
    (h : cfgMap.lookup "openai_api_key" = none) :
    openai_deep_researcher.from_runnable_config env cfgMap =
      openai_deep_researcher.mkConfiguration
        [("max_web_research_loops", rawLookup env cfgMap "max_web_research_loops"),
         ("openai_model", rawLookup env cfgMap "openai_model"),
         ("openai_api_key", (env "OPENAI_API_KEY").map CVal.s),
         ("search_api", rawLookup env cfgMap "search_api"),
         ("fetch_full_page", rawLookup env cfgMap "fetch_full_page"),
         ("temperature", rawLookup env cfgMap "temperature"),
         ("strip_thinking_tokens", rawLookup env cfgMap "strip_thinking_tokens")] := by
  have hO := rawLookup_openai_key env cfgMap h
  unfold openai_deep_researcher.from_runnable_config
  simp only [openai_deep_researcher.model_fields, List.map_cons, List.map_nil]
  rw [hO]
  cases hEO : env "OPENAI_API_KEY" <;> rfl

/-! ## Claims -/

/-- C2: invoking `run_research` with `GROQ_API_KEY` unset (or, with it set,
`TAVILY_API_KEY` unset) yields a `ValueError` whose message names the
missing variable.  The result is the same for every possible outcome of
`graph.invoke` — the validation runs before any search or language-model
call — and the error is the `ValueError` itself, never the wrapped
`"Research failed: ..."` exception form. -/
theorem C2_run_research_missing_key :
    (∀ (env : Env) (invokeResult : Except String String),
      env "GROQ_API_KEY" = none →
        run_research env invokeResult = .error (.valueError
          "GROQ_API_KEY environment variable is not set. Please set your Groq API key.")
        ∧ strContains
            "GROQ_API_KEY environment variable is not set. Please set your Groq API key."
            "GROQ_API_KEY" = true
        ∧ ∀ msg, run_research env invokeResult ≠ .error (.exception msg))
    ∧ (∀ (env : Env) (invokeResult : Except String String) (k : String),
      env "GROQ_API_KEY" = some k → k ≠ "" → env "TAVILY_API_KEY" = none →
        run_research env invokeResult = .error (.valueError
          "TAVILY_API_KEY environment variable is not set. Please set your Tavily API key.")
        ∧ strContains
            "TAVILY_API_KEY environment variable is not set. Please set your Tavily API key."
            "TAVILY_API_KEY" = true
        ∧ ∀ msg, run_research env invokeResult ≠ .error (.exception msg)) := by
  constructor
  · intro env invokeResult hG
    have hr : run_research env invokeResult = .error (.valueError
        "GROQ_API_KEY environment variable is not set. Please set your Groq API key.") := by
      unfold run_research
      rw [hG]
      simp [envTruthy]
    refine ⟨hr, by decide, ?_⟩
    intro msg
    rw [hr]
    simp
  · intro env invokeResult k hG hk hT
    have hr : run_research env invokeResult = .error (.valueError
        "TAVILY_API_KEY environment variable is not set. Please set your Tavily API key.") := by
      unfold run_research
      rw [hG, hT]
      simp [envTruthy, hk]
    refine ⟨hr, by decide, ?_⟩
    intro msg
    rw [hr]
    simp

/-- C2 witness: with every environment variable unset, `run_research`
fails with the `GROQ_API_KEY` configuration error regardless of the
(never-consulted) workflow outcome. -/
theorem C2_run_research_missing_key_witness :
    run_research (fun _ => none) (.ok "a summary") = .error (.valueError
      "GROQ_API_KEY environment variable is not set. Please set your Groq API key.") :=
  (C2_run_research_missing_key.1 (fun _ => none) (.ok "a summary") rfl).1

/-- C4: configuration resolution reads, for every declared field, the
environment variable named by upper-casing the field name, and consults the
explicit-overrides map only when that variable is absent; concretely, with
`TEMPERATURE="0.7"` in the environment and an explicit override
`temperature = 0.2`, either variant resolves `temperature` to `0.7`. -/
theorem C4_env_precedence :
    (∀ (env : Env) (cfgMap : List (String × CVal)) (name v : String),
      env (pyUpper name) = some v → rawLookup env cfgMap name = some (.s v))
    ∧ (∀ (env : Env) (cfgMap : List (String × CVal)) (name : String),
      env (pyUpper name) = none → rawLookup env cfgMap name = cfgMap.lookup name)
    ∧ (∀ (env : Env) (c : claude_deep_researcher.Configuration),
      env "TEMPERATURE" = some "0.7" →
      claude_deep_researcher.from_runnable_config env [("temperature", CVal.r (1 / 5))] = .ok c →
      c.temperature = 7 / 10)
    ∧ (∀ (env : Env) (c : openai_deep_researcher.Configuration),
      env "OPENAI_API_KEY" = none →
      env "TEMPERATURE" = some "0.7" →
      openai_deep_researcher.from_runnable_config env [("temperature", CVal.r (1 / 5))] = .ok c →
      c.temperature = 7 / 10) := by
  refine ⟨?_, ?_, ?_, ?_⟩
  · intro env cfgMap name v h
    exact rawLookup_env_some cfgMap rfl h
  · intro env cfgMap name h
    exact rawLookup_env_none cfgMap rfl h
  · intro env c hT h
    rw [claude_frc_raw] at h
    have ht := claude_mk_temperature h
    rw [show rawGet
        [("max_web_research_loops", rawLookup env [("temperature", CVal.r (1 / 5))] "max_web_research_loops"),
         ("groq_model", rawLookup env [("temperature", CVal.r (1 / 5))] "groq_model"),
         ("groq_api_key", rawLookup env [("temperature", CVal.r (1 / 5))] "groq_api_key"),
         ("search_api", rawLookup env [("temperature", CVal.r (1 / 5))] "search_api"),
         ("fetch_full_page", rawLookup env [("temperature", CVal.r (1 / 5))] "fetch_full_page"),
         ("temperature", rawLookup env [("temperature", CVal.r (1 / 5))] "temperature"),
         ("strip_thinking_tokens", rawLookup env [("temperature", CVal.r (1 / 5))] "strip_thinking_tokens"),
         ("openai_api_key", (env "OPENAI_API_KEY").map CVal.s)] "temperature"
        = rawLookup env [("temperature", CVal.r (1 / 5))] "temperature" from rfl,
      rawLookup_env_some _ (show pyUpper "temperature" = "TEMPERATURE" from rfl) hT] at ht
    have hc : coerceFloat (some (CVal.s "0.7")) 0 =
        .ok ((0 : ℚ) + (7 : ℚ) / (10 : ℚ) ^ (1 : ℕ)) := rfl
    rw [hc] at ht
    have hq := (Except.ok.injEq _ _).mp ht
    rw [← hq]
    norm_num
  · intro env c hO hT h
    rw [openai_frc_raw env [("temperature", CVal.r (1 / 5))] rfl] at h
    have ht := openai_mk_temperature h
    rw [show rawGet
        [("max_web_research_loops", rawLookup env [("temperature", CVal.r (1 / 5))] "max_web_research_loops"),
         ("openai_model", rawLookup env [("temperature", CVal.r (1 / 5))] "openai_model"),
         ("openai_api_key", (env "OPENAI_API_KEY").map CVal.s),
         ("search_api", rawLookup env [("temperature", CVal.r (1 / 5))] "search_api"),
         ("fetch_full_page", rawLookup env [("temperature", CVal.r (1 / 5))] "fetch_full_page"),
         ("temperature", rawLookup env [("temperature", CVal.r (1 / 5))] "temperature"),
         ("strip_thinking_tokens", rawLookup env [("temperature", CVal.r (1 / 5))] "strip_thinking_tokens")] "temperature"
        = rawLookup env [("temperature", CVal.r (1 / 5))] "temperature" from rfl,
      rawLookup_env_some _ (show pyUpper "temperature" = "TEMPERATURE" from rfl) hT] at ht
    have hc : coerceFloat (some (CVal.s "0.7")) 0 =
        .ok ((0 : ℚ) + (7 : ℚ) / (10 : ℚ) ^ (1 : ℕ)) := rfl
    rw [hc] at ht
    have hq := (Except.ok.injEq _ _).mp ht
    rw [← hq]
    norm_num

/-- A concrete environment for the C4 witness: only `TEMPERATURE` is set. -/
def envTempOnly : Env := fun n => if n = "TEMPERATURE" then some "0.7" else none

/-- The configuration C4's witness resolves (temperature written as the
unreduced arithmetic the parser produces; it equals `0.7`). -/
def cfgTempOnly : claude_deep_researcher.Configuration :=
  ⟨3, "llama-3.3-70b-versatile", none, "tavily", true,
    (0 : ℚ) + (7 : ℚ) / (10 : ℚ) ^ (1 : ℕ), true⟩

/-- C4 witness: with `TEMPERATURE="0.7"` in the environment and the explicit
override `temperature = 0.2`, the Groq-style resolver yields `0.7`. -/
theorem C4_env_precedence_witness : cfgTempOnly.temperature = 7 / 10 :=
  C4_env_precedence.2.2.1 envTempOnly cfgTempOnly rfl rfl

/-- The `configurable` map of `app.py` without its `"groq_model"` entry. -/
def app_configurable_rest : List (String × CVal) :=
  [("temperature", .r (1 / 10)),
   ("max_web_research_loops", .i 3),
   ("fetch_full_page", .b true),
   ("strip_thinking_tokens", .b true)]

/-- C9: entry point A validates Groq-named keys but drives the OpenAI-style
workflow; its model override travels as `"groq_model"`, which is not a
declared field of the OpenAI-style `Configuration`.  The override is
therefore dropped — resolution is unchanged if the entry is removed — and
with `OPENAI_MODEL` unset the resolved model identifier is the default
`"gpt-4"`, not `"llama-3.3-70b-versatile"`. -/
theorem C9_groq_model_override_dropped :
    ("groq_model" ∉ openai_deep_researcher.model_fields)
    ∧ (∀ env : Env,
        openai_deep_researcher.from_runnable_config env app_configurable =
        openai_deep_researcher.from_runnable_config env app_configurable_rest)
    ∧ (∀ (env : Env) (c : openai_deep_researcher.Configuration),
        env "OPENAI_MODEL" = none →
        openai_deep_researcher.from_runnable_config env app_configurable = .ok c →
        c.openai_model = "gpt-4" ∧ c.openai_model ≠ "llama-3.3-70b-versatile") := by
  refine ⟨by decide, ?_, ?_⟩
  · intro env
    rw [openai_frc_raw env app_configurable rfl,
        openai_frc_raw env app_configurable_rest rfl]
    have h1 : rawLookup env app_configurable "max_web_research_loops" =
        rawLookup env app_configurable_rest "max_web_research_loops" := by
      unfold rawLookup
      cases env (pyUpper "max_web_research_loops") <;> rfl
    have h2 : rawLookup env app_configurable "openai_model" =
        rawLookup env app_configurable_rest "openai_model" := by
      unfold rawLookup
      cases env (pyUpper "openai_model") <;> rfl
    have h3 : rawLookup env app_configurable "search_api" =
        rawLookup env app_configurable_rest "search_api" := by
      unfold rawLookup
      cases env (pyUpper "search_api") <;> rfl
    have h4 : rawLookup env app_configurable "fetch_full_page" =
        rawLookup env app_configurable_rest "fetch_full_page" := by
      unfold rawLookup
      cases env (pyUpper "fetch_full_page") <;> rfl
    have h5 : rawLookup env app_configurable "temperature" =
        rawLookup env app_configurable_rest "temperature" := by
      unfold rawLookup
      cases env (pyUpper "temperature") <;> rfl
    have h6 : rawLookup env app_configurable "strip_thinking_tokens" =
        rawLookup env app_configurable_rest "strip_thinking_tokens" := by
      unfold rawLookup
      cases env (pyUpper "strip_thinking_tokens") <;> rfl
    rw [h1, h2, h3, h4, h5, h6]
  · intro env c hM h
    rw [openai_frc_raw env app_configurable rfl] at h
    have ht := openai_mk_model h
    rw [show rawGet
        [("max_web_research_loops", rawLookup env app_configurable "max_web_research_loops"),
         ("openai_model", rawLookup env app_configurable "openai_model"),
         ("openai_api_key", (env "OPENAI_API_KEY").map CVal.s),
         ("search_api", rawLookup env app_configurable "search_api"),
         ("fetch_full_page", rawLookup env app_configurable "fetch_full_page"),
         ("temperature", rawLookup env app_configurable "temperature"),
         ("strip_thinking_tokens", rawLookup env app_configurable "strip_thinking_tokens")]
        "openai_model" = rawLookup env app_configurable "openai_model" from rfl,
      rawLookup_env_none _ (show pyUpper "openai_model" = "OPENAI_MODEL" from rfl) hM,
      show List.lookup "openai_model" app_configurable = none from rfl] at ht
    have hgm : c.openai_model = "gpt-4" :=
      ((Except.ok.injEq _ _).mp ht).symm
    exact ⟨hgm, by rw [hgm]; decide⟩

/-- The configuration C9's witness resolves. -/
def cfgAppDefaultEnv : openai_deep_researcher.Configuration :=
  ⟨3, "gpt-4", none, "tavily", true, 1 / 10, true⟩

/-- C9 witness: resolving app.py's configurable map in an empty environment
yields the default `"gpt-4"` model identifier. -/
theorem C9_groq_model_override_dropped_witness :
    cfgAppDefaultEnv.openai_model = "gpt-4" ∧
      cfgAppDefaultEnv.openai_model ≠ "llama-3.3-70b-versatile" :=
  C9_groq_model_override_dropped.2.2 (fun _ => none) cfgAppDefaultEnv rfl rfl

/-- C10: the Groq-style resolver's hardcoded fallback writes to the key
`"openai_api_key"`, which is not a declared field of the Groq-style
`Configuration`; consequently the resolved `groq_api_key` is determined by
the `GROQ_API_KEY` environment variable and the explicit `"groq_api_key"`
override alone — for every environment and override map — and is `none`
when both are absent. -/
theorem C10_groq_key_never_from_openai :
    ("openai_api_key" ∉ claude_deep_researcher.model_fields)
    ∧ (∀ (env : Env) (cfgMap : List (String × CVal))
        (c : claude_deep_researcher.Configuration),
        claude_deep_researcher.from_runnable_config env cfgMap = .ok c →
        c.groq_api_key =
          match env "GROQ_API_KEY" with
          | some v => some v
          | none =>
            match cfgMap.lookup "groq_api_key" with
            | some (.s v) => some v
            | _ => none) := by
  refine ⟨by decide, ?_⟩
  intro env cfgMap c h
  rw [claude_frc_raw] at h
  have ht := claude_mk_groq_api_key h
  rw [show rawGet
      [("max_web_research_loops", rawLookup env cfgMap "max_web_research_loops"),
       ("groq_model", rawLookup env cfgMap "groq_model"),
       ("groq_api_key", rawLookup env cfgMap "groq_api_key"),
       ("search_api", rawLookup env cfgMap "search_api"),
       ("fetch_full_page", rawLookup env cfgMap "fetch_full_page"),
       ("temperature", rawLookup env cfgMap "temperature"),
       ("strip_thinking_tokens", rawLookup env cfgMap "strip_thinking_tokens"),
       ("openai_api_key", (env "OPENAI_API_KEY").map CVal.s)] "groq_api_key"
      = rawLookup env cfgMap "groq_api_key" from rfl] at ht
  unfold rawLookup at ht
  rw [show pyUpper "groq_api_key" = "GROQ_API_KEY" from rfl] at ht
  cases hG : env "GROQ_API_KEY" with
  | some v =>
    rw [hG] at ht
    exact ((Except.ok.injEq _ _).mp ht).symm
  | none =>
    rw [hG] at ht
    cases hL : cfgMap.lookup "groq_api_key" with
    | none =>
      rw [hL] at ht
      exact ((Except.ok.injEq _ _).mp ht).symm
    | some cv =>
      rw [hL] at ht
      cases cv with
      | s v => exact ((Except.ok.injEq _ _).mp ht).symm
      | i v => simp [coerceOptStr] at ht
      | r v => simp [coerceOptStr] at ht
      | b v => simp [coerceOptStr] at ht

/-- An environment for the C10 witness: only `OPENAI_API_KEY` is set. -/
def envOpenaiOnly : Env := fun n => if n = "OPENAI_API_KEY" then some "sk-test" else none

/-- The configuration C10's witness resolves. -/
def cfgGroqOverride : claude_deep_researcher.Configuration :=
  ⟨3, "llama-3.3-70b-versatile", some "gk", "tavily", true, 0, true⟩

/-- C10 witness: with `OPENAI_API_KEY` set in the environment, the resolved
`groq_api_key` still comes from the explicit `"groq_api_key"` override. -/
theorem C10_groq_key_never_from_openai_witness :
    cfgGroqOverride.groq_api_key = some "gk" :=
  C10_groq_key_never_from_openai.2 envOpenaiOnly [("groq_api_key", .s "gk")]
    cfgGroqOverride rfl

/-- The default resolved configuration (`strip_thinking_tokens = true`). -/
def cfgDefault : claude_deep_researcher.Configuration := {}

/-- A configuration with thinking-token stripping disabled. -/
def cfgNoStrip : claude_deep_researcher.Configuration := { strip_thinking_tokens := false }

/-- C6 counterexample: the reply `"[]"` parses as structured JSON and lacks
a `query` field, yet `generate_query` raises an uncaught `TypeError`
(subscripting a list with a string key is neither a `JSONDecodeError` nor a
`KeyError`, the only exceptions its handler catches) instead of yielding a
fallback query. -/
theorem C6_nonobject_reply_raises :
    json_loads "[]" = some (.arr [])
    ∧ claude_deep_researcher.generate_query cfgDefault "[]" =
        .error (.typeError "list indices must be integers or slices, not str") :=
  ⟨rfl, rfl⟩

/-- C6 (amended): when the query-writer reply is not parseable as JSON,
`generate_query` yields the raw reply (thinking-token-stripped when
configured) as the query; when it parses to a JSON object, it yields the
object's `query` field when present and the raw-text fallback when absent;
but a reply parsing to a non-object JSON value raises an uncaught
`TypeError`. -/
theorem C6_generate_query_fallback (cfg : claude_deep_researcher.Configuration)
    (content : String) :
    (json_loads content = none →
      claude_deep_researcher.generate_query cfg content =
        .ok { search_query := some (.str (if cfg.strip_thinking_tokens then
          strip_thinking_tokens content else content)) })
    ∧ (∀ kvs, json_loads content = some (.obj kvs) →
        claude_deep_researcher.generate_query cfg content =
          (match JsonVal.objGet kvs "query" with
           | some v => .ok { search_query := some v }
           | none => .ok { search_query := some (.str (if cfg.strip_thinking_tokens then
               strip_thinking_tokens content else content)) }))
    ∧ (∀ j, json_loads content = some j → (∀ kvs, j ≠ .obj kvs) →
        ∃ msg, claude_deep_researcher.generate_query cfg content =
          .error (.typeError msg)) := by
  refine ⟨?_, ?_, ?_⟩
  · intro h
    unfold claude_deep_researcher.generate_query
    rw [h]
  · intro kvs h
    unfold claude_deep_researcher.generate_query
    rw [h]
    cases hq : JsonVal.objGet kvs "query" <;> simp [pyGetItem, hq]
  · intro j h hne
    cases j with
    | null => exact ⟨_, by unfold claude_deep_researcher.generate_query; rw [h]; rfl⟩
    | bool b => exact ⟨_, by unfold claude_deep_researcher.generate_query; rw [h]; rfl⟩
    | num n => exact ⟨_, by unfold claude_deep_researcher.generate_query; rw [h]; rfl⟩
    | str s => exact ⟨_, by unfold claude_deep_researcher.generate_query; rw [h]; rfl⟩
    | arr xs => exact ⟨_, by unfold claude_deep_researcher.generate_query; rw [h]; rfl⟩
    | obj kvs => exact absurd rfl (hne kvs)

/-- C6 witness: an unparseable reply falls back to the raw text. -/
theorem C6_generate_query_fallback_witness :
    claude_deep_researcher.generate_query cfgDefault "quantum computing basics" =
      .ok { search_query := some (.str "quantum computing basics") } :=
  (C6_generate_query_fallback cfgDefault "quantum computing basics").1 rfl

/-- C7: when the reflection reply is not parseable as JSON, or parses to an
object whose `follow_up_query` field is absent or empty, the new
`search_query` is exactly `"Tell me more about "` followed by the topic; in
particular so for topic `"Quantum Computing"` and an unparseable reply. -/
theorem C7_reflect_fallback :
    (∀ (topic content : String), json_loads content = none →
      claude_deep_researcher.reflect_on_summary topic content =
        { search_query := some (.str ("Tell me more about " ++ topic)) })
    ∧ (∀ (topic content : String) (kvs : List (String × JsonVal)),
        json_loads content = some (.obj kvs) →
        (JsonVal.objGet kvs "follow_up_query" = none ∨
          JsonVal.objGet kvs "follow_up_query" = some (.str "")) →
        claude_deep_researcher.reflect_on_summary topic content =
          { search_query := some (.str ("Tell me more about " ++ topic)) })
    ∧ claude_deep_researcher.reflect_on_summary "Quantum Computing"
        "no structured output today" =
        { search_query := some (.str "Tell me more about Quantum Computing") } := by
  refine ⟨?_, ?_, rfl⟩
  · intro topic content h
    unfold claude_deep_researcher.reflect_on_summary
    rw [h]
  · intro topic content kvs h hq
    unfold claude_deep_researcher.reflect_on_summary
    rw [h]
    rcases hq with hq | hq <;> simp [pyGetMethod, hq, pyTruthy]

/-- C7 witness: topic `"Quantum Computing"`, unparseable reflection reply. -/
theorem C7_reflect_fallback_witness :
    claude_deep_researcher.reflect_on_summary "Quantum Computing" "oops" =
      { search_query := some (.str "Tell me more about Quantum Computing") } :=
  C7_reflect_fallback.1 "Quantum Computing" "oops" rfl

/-- C8 counterexample: for the empty reply (with or without thinking-token
stripping) `generate_query` yields `search_query = ""` — an empty update,
refuting the claim that the yielded `search_query` is always non-empty. -/
theorem C8_empty_reply_empty_query :
    claude_deep_researcher.generate_query cfgNoStrip "" =
        .ok { search_query := some (.str "") }
    ∧ claude_deep_researcher.generate_query cfgDefault "" =
        .ok { search_query := some (.str "") } :=
  ⟨rfl, rfl⟩

/-- C8 (amended): `generate_query` yields a `search_query` update for every
reply that fails to parse as JSON or parses to a JSON object (a non-object
JSON reply instead raises, see C6), but the yielded query can be empty: the
empty reply yields `search_query = ""`. -/
theorem C8_query_update_possibly_empty :
    (∀ (cfg : claude_deep_researcher.Configuration) (content : String),
      json_loads content = none →
      (claude_deep_researcher.generate_query cfg content).isOk = true)
    ∧ (∀ (cfg : claude_deep_researcher.Configuration) (content : String)
        (kvs : List (String × JsonVal)),
      json_loads content = some (.obj kvs) →
      (claude_deep_researcher.generate_query cfg content).isOk = true)
    ∧ (∀ cfg : claude_deep_researcher.Configuration,
      claude_deep_researcher.generate_query cfg "" =
        .ok { search_query := some (.str "") }) := by
  refine ⟨?_, ?_, ?_⟩
  · intro cfg content h
    unfold claude_deep_researcher.generate_query
    rw [h]
    rfl
  · intro cfg content kvs h
    unfold claude_deep_researcher.generate_query
    rw [h]
    cases hq : JsonVal.objGet kvs "query" <;> simp [pyGetItem, hq, Except.isOk, Except.toBool]
  · intro cfg
    unfold claude_deep_researcher.generate_query
    rw [show json_loads "" = none from rfl]
    cases hb : cfg.strip_thinking_tokens <;> simp [hb]
    exact show strip_thinking_tokens "" = "" from rfl

/-- C8 witness: a plain-text reply yields a (successful) query update. -/
theorem C8_query_update_possibly_empty_witness :
    (claude_deep_researcher.generate_query cfgDefault "hello there").isOk = true :=
  C8_query_update_possibly_empty.1 cfgDefault "hello there" rfl

/-! ## Lemmas on the finalize_summary deduplication fold -/

theorem foldl_over_flatMap {α β γ : Type} (f : α → List β) (g : γ → β → γ) :
    ∀ (l : List α) (init : γ),
      (l.flatMap f).foldl g init = l.foldl (fun acc x => (f x).foldl g acc) init
  | [], _ => rfl
  | x :: xs, init => by
    rw [List.flatMap_cons, List.foldl_append, List.foldl_cons,
      foldl_over_flatMap f g xs]

/-- `uniqueSourceLines` as a single fold over the flattened line list. -/
theorem uniqueSourceLines_eq_foldl (sources : List String) :
    claude_deep_researcher.uniqueSourceLines sources =
      (sources.flatMap (fun s => pySplitOn s "\n")).foldl claude_deep_researcher.sourceLineStep [] := by
  rw [claude_deep_researcher.uniqueSourceLines, foldl_over_flatMap]

theorem sourceLineStep_pos {acc : List String} {a : String}
    (h : pyStrip a ≠ "" ∧ a ∉ acc) :
    claude_deep_researcher.sourceLineStep acc a = acc ++ [a] := by
  unfold claude_deep_researcher.sourceLineStep
  rw [if_pos h]

theorem sourceLineStep_neg {acc : List String} {a : String}
    (h : ¬(pyStrip a ≠ "" ∧ a ∉ acc)) :
    claude_deep_researcher.sourceLineStep acc a = acc := by
  unfold claude_deep_researcher.sourceLineStep
  rw [if_neg h]

theorem sourceLineStep_fold_mono :
    ∀ (l acc : List String) (x : String), x ∈ acc →
      x ∈ l.foldl claude_deep_researcher.sourceLineStep acc
  | [], _, _, hx => hx
  | a :: l, acc, x, hx => by
    rw [List.foldl_cons]
    refine sourceLineStep_fold_mono l _ x ?_
    by_cases hc : pyStrip a ≠ "" ∧ a ∉ acc
    · rw [sourceLineStep_pos hc]
      exact List.mem_append.mpr (Or.inl hx)
    · rwa [sourceLineStep_neg hc]

theorem sourceLineStep_fold_suffix :
    ∀ (l acc : List String),
      ∃ t, l.foldl claude_deep_researcher.sourceLineStep acc = acc ++ t ∧ t.Sublist l
  | [], acc => ⟨[], by simp⟩
  | a :: l, acc => by
    rw [List.foldl_cons]
    by_cases hc : pyStrip a ≠ "" ∧ a ∉ acc
    · rw [sourceLineStep_pos hc]
      obtain ⟨t, ht, hs⟩ := sourceLineStep_fold_suffix l (acc ++ [a])
      exact ⟨a :: t, by rw [ht, List.append_assoc]; rfl, List.Sublist.cons₂ a hs⟩
    · rw [sourceLineStep_neg hc]
      obtain ⟨t, ht, hs⟩ := sourceLineStep_fold_suffix l acc
      exact ⟨t, ht, List.Sublist.cons a hs⟩

theorem sourceLineStep_fold_nodup :
    ∀ (l acc : List String), acc.Nodup →
      (l.foldl claude_deep_researcher.sourceLineStep acc).Nodup
  | [], _, h => h
  | a :: l, acc, h => by
    rw [List.foldl_cons]
    refine sourceLineStep_fold_nodup l _ ?_
    by_cases hc : pyStrip a ≠ "" ∧ a ∉ acc
    · rw [sourceLineStep_pos hc, List.nodup_append]
      refine ⟨h, by simp, ?_⟩
      intro b hb hba
      exact hc.2 ((List.mem_singleton.mp hba) ▸ hb)
    · rwa [sourceLineStep_neg hc]

theorem sourceLineStep_fold_complete :
    ∀ (l acc : List String) (x : String), x ∈ l → pyStrip x ≠ "" →
      x ∈ l.foldl claude_deep_researcher.sourceLineStep acc
  | a :: l, acc, x, hx, hnb => by
    rw [List.foldl_cons]
    rcases List.mem_cons.mp hx with hxa | hxl
    · subst hxa
      refine sourceLineStep_fold_mono l _ x ?_
      by_cases hc : pyStrip x ≠ "" ∧ x ∉ acc
      · rw [sourceLineStep_pos hc]
        exact List.mem_append.mpr (Or.inr (by simp))
      · have hmem : x ∈ acc := by
          by_contra hval
          exact hc ⟨hnb, hval⟩
        rwa [sourceLineStep_neg hc]
    · exact sourceLineStep_fold_complete l _ x hxl hnb

theorem sourceLineStep_fold_nonblank :
    ∀ (l acc : List String), (∀ x ∈ acc, pyStrip x ≠ "") →
      ∀ x ∈ l.foldl claude_deep_researcher.sourceLineStep acc, pyStrip x ≠ ""
  | [], _, h => h
  | a :: l, acc, h => by
    rw [List.foldl_cons]
    refine sourceLineStep_fold_nonblank l _ ?_
    intro x hx
    by_cases hc : pyStrip a ≠ "" ∧ a ∉ acc
    · rw [sourceLineStep_pos hc] at hx
      rcases List.mem_append.mp hx with hx | hx
      · exact h x hx
      · rw [List.mem_singleton.mp hx]
        exact hc.1
    · rw [sourceLineStep_neg hc] at hx
      exact h x hx

/-- C3: `finalize_summary` splits every gathered citation block into lines,
discards blank lines, deduplicates the remaining lines by exact text while
preserving order, joins them with newlines and rewrites the running summary
to exactly `"## Summary\n" ++ summary ++ "\n\n ### Sources:\n" ++ lines`;
on the spec's two-block example the source lines come out as
`"* A : url1"`, `"* B : url2"`, `"* C : url3"`, each once, in that order. -/
theorem C3_finalize_summary_dedup :
    (∀ (summary : String) (sources : List String),
      claude_deep_researcher.finalize_summary (some summary) sources =
        "## Summary\n" ++ summary ++ "\n\n ### Sources:\n" ++
          String.intercalate "\n" (claude_deep_researcher.uniqueSourceLines sources))
    ∧ (∀ sources : List String,
        (claude_deep_researcher.uniqueSourceLines sources).Nodup
        ∧ (claude_deep_researcher.uniqueSourceLines sources).Sublist
            (sources.flatMap (fun s => pySplitOn s "\n"))
        ∧ (∀ l, l ∈ sources.flatMap (fun s => pySplitOn s "\n") → pyStrip l ≠ "" →
            l ∈ claude_deep_researcher.uniqueSourceLines sources)
        ∧ (∀ l ∈ claude_deep_researcher.uniqueSourceLines sources, pyStrip l ≠ ""))
    ∧ claude_deep_researcher.uniqueSourceLines
        ["* A : url1\n* B : url2", "* B : url2\n* C : url3"] =
        ["* A : url1", "* B : url2", "* C : url3"]
    ∧ claude_deep_researcher.finalize_summary (some "S")
        ["* A : url1\n* B : url2", "* B : url2\n* C : url3"] =
        "## Summary\nS\n\n ### Sources:\n* A : url1\n* B : url2\n* C : url3" := by
  refine ⟨fun summary sources => rfl, ?_, rfl, rfl⟩
  intro sources
  rw [uniqueSourceLines_eq_foldl]
  refine ⟨sourceLineStep_fold_nodup _ [] List.nodup_nil, ?_, ?_, ?_⟩
  · obtain ⟨t, ht, hs⟩ := sourceLineStep_fold_suffix
      (sources.flatMap (fun s => pySplitOn s "\n")) []
    rw [ht]
    exact hs
  · intro l hl hnb
    exact sourceLineStep_fold_complete _ [] l hl hnb
  · exact sourceLineStep_fold_nonblank _ [] (by simp)

/-- C3 witness: on the example blocks, the duplicated line `"* B : url2"`
is (still, and only once, by the theorem's other conjuncts) present. -/
theorem C3_finalize_summary_dedup_witness :
    "* B : url2" ∈ claude_deep_researcher.uniqueSourceLines
      ["* A : url1\n* B : url2", "* B : url2\n* C : url3"] :=
  (C3_finalize_summary_dedup.2.1
      ["* A : url1\n* B : url2", "* B : url2\n* C : url3"]).2.2.1
    "* B : url2" (by decide) (by decide)

/-! ## Lemmas on the workflow run -/

theorem runTrace_succ (cfg : claude_deep_researcher.Configuration)
    (o : claude_deep_researcher.Oracle) (topic : String) (n : Nat) :
    claude_deep_researcher.runTrace cfg o topic (n + 1) =
      match claude_deep_researcher.runTrace cfg o topic n with
      | .error e => .error e
      | .ok (node, s, tr) =>
        match claude_deep_researcher.stepGraph cfg o node s with
        | .error e => .error e
        | .ok (node', s') => .ok (node', s', tr ++ [node']) := rfl

/-- A successful `generate_query` updates only `search_query`. -/
theorem generate_query_ok_fields {cfg : claude_deep_researcher.Configuration}
    {content : String} {u : claude_deep_researcher.NodeUpdate}
    (h : claude_deep_researcher.generate_query cfg content = .ok u) :
    u.research_loop_count = none ∧ u.sources_gathered = []
      ∧ u.web_research_results = [] ∧ u.running_summary = none := by
  unfold claude_deep_researcher.generate_query at h
  rcases hj : json_loads content with _ | j
  · rw [hj] at h
    dsimp only at h
    cases h
    exact ⟨rfl, rfl, rfl, rfl⟩
  · rw [hj] at h
    dsimp only at h
    rcases hq : pyGetItem j "query" with e | v <;> rw [hq] at h
    · cases e <;> simp at h <;> rw [← h] <;> exact ⟨rfl, rfl, rfl, rfl⟩
    · cases h
      exact ⟨rfl, rfl, rfl, rfl⟩

/-- `reflect_on_summary` updates only `search_query`. -/
theorem reflect_on_summary_fields (topic content : String) :
    (claude_deep_researcher.reflect_on_summary topic content).research_loop_count = none
    ∧ (claude_deep_researcher.reflect_on_summary topic content).sources_gathered = []
    ∧ (claude_deep_researcher.reflect_on_summary topic content).web_research_results = []
    ∧ (claude_deep_researcher.reflect_on_summary topic content).running_summary = none := by
  unfold claude_deep_researcher.reflect_on_summary
  cases hj : json_loads content with
  | none => exact ⟨rfl, rfl, rfl, rfl⟩
  | some j =>
    dsimp only
    cases hq : pyGetMethod j "follow_up_query" with
    | error e => exact ⟨rfl, rfl, rfl, rfl⟩
    | ok q =>
      cases q with
      | none => exact ⟨rfl, rfl, rfl, rfl⟩
      | some v =>
        dsimp only
        cases hb : pyTruthy v <;> exact ⟨rfl, rfl, rfl, rfl⟩

theorem mergeUpdate_count (s : claude_deep_researcher.SummaryState)
    (u : claude_deep_researcher.NodeUpdate) :
    (claude_deep_researcher.mergeUpdate s u).research_loop_count =
      u.research_loop_count.getD s.research_loop_count := rfl

theorem mergeUpdate_sources (s : claude_deep_researcher.SummaryState)
    (u : claude_deep_researcher.NodeUpdate) :
    (claude_deep_researcher.mergeUpdate s u).sources_gathered =
      s.sources_gathered ++ u.sources_gathered := rfl

/-- C5: in every state reachable by the workflow from a fresh initial
state, `len(sources_gathered) = research_loop_count`; `web_research`
appends exactly one citation block and increments the counter by exactly 1,
and no other node touches either field. -/
theorem C5_sources_match_loop_count :
    (∀ (cfg : claude_deep_researcher.Configuration) (o : claude_deep_researcher.Oracle)
        (topic : String) (n : Nat) (node : claude_deep_researcher.Node)
        (s : claude_deep_researcher.SummaryState) (tr : List claude_deep_researcher.Node),
      claude_deep_researcher.runTrace cfg o topic n = .ok (node, s, tr) →
      s.sources_gathered.length = s.research_loop_count)
    ∧ (∀ (cit ctx : String) (n : Nat),
      (claude_deep_researcher.web_research cit ctx n).sources_gathered = [cit]
      ∧ (claude_deep_researcher.web_research cit ctx n).research_loop_count = some (n + 1))
    ∧ (∀ (cfg : claude_deep_researcher.Configuration) (content : String)
        (u : claude_deep_researcher.NodeUpdate),
      claude_deep_researcher.generate_query cfg content = .ok u →
      u.research_loop_count = none ∧ u.sources_gathered = [])
    ∧ (∀ (cfg : claude_deep_researcher.Configuration) (content : String),
      (claude_deep_researcher.summarize_sources cfg content).research_loop_count = none
      ∧ (claude_deep_researcher.summarize_sources cfg content).sources_gathered = [])
    ∧ (∀ (topic content : String),
      (claude_deep_researcher.reflect_on_summary topic content).research_loop_count = none
      ∧ (claude_deep_researcher.reflect_on_summary topic content).sources_gathered = []) := by
  refine ⟨?_, fun cit ctx n => ⟨rfl, rfl⟩, ?_, fun cfg content => ⟨rfl, rfl⟩, ?_⟩
  · intro cfg o topic n
    induction n with
    | zero =>
      intro node s tr h
      cases h
      rfl
    | succ n ih =>
      intro node s tr h
      rw [runTrace_succ] at h
      cases hr : claude_deep_researcher.runTrace cfg o topic n with
      | error e =>
        rw [hr] at h
        cases h
      | ok res =>
        obtain ⟨node₀, s₀, tr₀⟩ := res
        rw [hr] at h
        dsimp only at h
        have inv₀ := ih node₀ s₀ tr₀ hr
        cases node₀ with
        | START =>
          dsimp only [claude_deep_researcher.stepGraph] at h
          cases h
          exact inv₀
        | generate_query =>
          dsimp only [claude_deep_researcher.stepGraph] at h
          cases hg : claude_deep_researcher.generate_query cfg o.genReply with
          | error e =>
            rw [hg] at h
            cases h
          | ok u =>
            rw [hg] at h
            dsimp only [Except.map] at h
            cases h
            obtain ⟨hc, hs, _, _⟩ := generate_query_ok_fields hg
            rw [mergeUpdate_sources, mergeUpdate_count, hc, hs]
            simpa using inv₀
        | web_research =>
          dsimp only [claude_deep_researcher.stepGraph] at h
          cases h
          rw [mergeUpdate_sources, mergeUpdate_count]
          simp [claude_deep_researcher.web_research, inv₀]
        | summarize_sources =>
          dsimp only [claude_deep_researcher.stepGraph] at h
          cases h
          rw [mergeUpdate_sources, mergeUpdate_count]
          simpa [claude_deep_researcher.summarize_sources] using inv₀
        | reflect_on_summary =>
          dsimp only [claude_deep_researcher.stepGraph] at h
          split at h <;> cases h <;>
            rw [mergeUpdate_sources, mergeUpdate_count,
              (reflect_on_summary_fields s₀.research_topic _).2.1,
              (reflect_on_summary_fields s₀.research_topic _).1] <;>
            simpa using inv₀
        | finalize_summary =>
          dsimp only [claude_deep_researcher.stepGraph] at h
          cases h
          rw [mergeUpdate_sources, mergeUpdate_count]
          simpa using inv₀
        | END =>
          dsimp only [claude_deep_researcher.stepGraph] at h
          cases h
          exact inv₀
  · intro cfg content u h
    obtain ⟨hc, hs, _, _⟩ := generate_query_ok_fields h
    exact ⟨hc, hs⟩
  · intro topic content
    exact ⟨(reflect_on_summary_fields topic content).1,
      (reflect_on_summary_fields topic content).2.1⟩

theorem runTrace_error_steps (cfg : claude_deep_researcher.Configuration)
    (o : claude_deep_researcher.Oracle) (topic : String) (e : PyErr) :
    ∀ (n m : Nat), claude_deep_researcher.runTrace cfg o topic n = .error e →
      claude_deep_researcher.runTrace cfg o topic (n + m) = .error e
  | _, 0, h => h
  | n, m + 1, h => by
    rw [show n + (m + 1) = (n + m) + 1 from rfl, runTrace_succ,
      runTrace_error_steps cfg o topic e n m h]

/-- The node sequence of a completed default-budget run: `web_research` is
entered exactly four times, at loop counts 1, 2, 3 and 4, before the
conditional edge routes to `finalize_summary`. -/
def expectedTrace : List claude_deep_researcher.Node :=
  [.START, .generate_query,
   .web_research, .summarize_sources, .reflect_on_summary,
   .web_research, .summarize_sources, .reflect_on_summary,
   .web_research, .summarize_sources, .reflect_on_summary,
   .web_research, .summarize_sources, .reflect_on_summary,
   .finalize_summary, .END]

/-- C1: `route_research` returns `"web_research"` whenever
`research_loop_count <= max_web_research_loops` and `"finalize_summary"`
otherwise; consequently, for `max_web_research_loops = 3`, a completed run
from a fresh state enters `web_research` exactly 4 times (at loop counts
1, 2, 3, 4) before the conditional edge routes to `finalize_summary`. -/
theorem C1_route_research_loop_budget :
    (∀ (s : claude_deep_researcher.SummaryState)
        (cfg : claude_deep_researcher.Configuration),
      ((s.research_loop_count : Int) ≤ cfg.max_web_research_loops →
        claude_deep_researcher.route_research s cfg = "web_research")
      ∧ (cfg.max_web_research_loops < (s.research_loop_count : Int) →
        claude_deep_researcher.route_research s cfg = "finalize_summary"))
    ∧ (∀ (cfg : claude_deep_researcher.Configuration)
        (o : claude_deep_researcher.Oracle) (topic : String)
        (node : claude_deep_researcher.Node)
        (s : claude_deep_researcher.SummaryState)
        (tr : List claude_deep_researcher.Node),
      cfg.max_web_research_loops = 3 →
      claude_deep_researcher.runTrace cfg o topic 15 = .ok (node, s, tr) →
      node = .END ∧ tr = expectedTrace
        ∧ tr.count .web_research = 4 ∧ s.research_loop_count = 4) := by
  constructor
  · intro s cfg
    constructor
    · intro h
      unfold claude_deep_researcher.route_research
      rw [if_pos h]
    · intro h
      unfold claude_deep_researcher.route_research
      rw [if_neg (not_le.mpr h)]
  · intro cfg o topic node s tr hmax h
    have e0 : claude_deep_researcher.runTrace cfg o topic 0 =
        .ok (.START, { research_topic := topic }, [.START]) := rfl
    have e1 : claude_deep_researcher.runTrace cfg o topic 1 =
        .ok (.generate_query, { research_topic := topic },
          [.START, .generate_query]) := by
      rw [show (1 : Nat) = 0 + 1 from rfl, runTrace_succ, e0]
      rfl
    cases hg : claude_deep_researcher.generate_query cfg o.genReply with
    | error e =>
      exfalso
      have e2 : claude_deep_researcher.runTrace cfg o topic 2 = .error e := by
        rw [show (2 : Nat) = 1 + 1 from rfl, runTrace_succ, e1]
        dsimp only [claude_deep_researcher.stepGraph]
        rw [hg]
        rfl
      have e15 := runTrace_error_steps cfg o topic e 2 13 e2
      rw [show (2 + 13 : Nat) = 15 from rfl] at e15
      rw [e15] at h
      cases h
    | ok u =>
      obtain ⟨huc, hus, huw, hur⟩ := generate_query_ok_fields hg
      obtain ⟨s2, e2, c2⟩ :
          ∃ s', claude_deep_researcher.runTrace cfg o topic 2 =
              .ok (.web_research, s', [.START, .generate_query, .web_research])
            ∧ s'.research_loop_count = 0 :=
        ⟨_, by
          rw [show (2 : Nat) = 1 + 1 from rfl, runTrace_succ, e1]
          dsimp only [claude_deep_researcher.stepGraph]
          rw [hg]
          rfl, by
          simp [mergeUpdate_count, huc]⟩
      obtain ⟨s3, e3, c3⟩ :
          ∃ s', claude_deep_researcher.runTrace cfg o topic 3 =
              .ok (.summarize_sources, s', [.START, .generate_query, .web_research, .summarize_sources])
            ∧ s'.research_loop_count = 1 :=
        ⟨_, by
          rw [show (3 : Nat) = 2 + 1 from rfl, runTrace_succ, e2]
          rfl, by
          simp [mergeUpdate_count, claude_deep_researcher.web_research, c2]⟩
      obtain ⟨s4, e4, c4⟩ :
          ∃ s', claude_deep_researcher.runTrace cfg o topic 4 =
              .ok (.reflect_on_summary, s', [.START, .generate_query, .web_research, .summarize_sources, .reflect_on_summary])
            ∧ s'.research_loop_count = 1 :=
        ⟨_, by
          rw [show (4 : Nat) = 3 + 1 from rfl, runTrace_succ, e3]
          rfl, by
          simp [mergeUpdate_count, claude_deep_researcher.summarize_sources, c3]⟩
      have hr5 : claude_deep_researcher.route_research
          (claude_deep_researcher.mergeUpdate s4
            (claude_deep_researcher.reflect_on_summary s4.research_topic
              (o.reflReply s4.research_loop_count))) cfg = "web_research" := by
        unfold claude_deep_researcher.route_research
        rw [mergeUpdate_count, (reflect_on_summary_fields _ _).1, c4, hmax]
        decide
      obtain ⟨s5, e5, c5⟩ :
          ∃ s', claude_deep_researcher.runTrace cfg o topic 5 =
              .ok (.web_research, s', [.START, .generate_query, .web_research, .summarize_sources, .reflect_on_summary, .web_research])
            ∧ s'.research_loop_count = 1 :=
        ⟨_, by
          rw [show (5 : Nat) = 4 + 1 from rfl, runTrace_succ, e4]
          dsimp only [claude_deep_researcher.stepGraph]
          rw [hr5]
          rfl, by
          simp [mergeUpdate_count, (reflect_on_summary_fields _ _).1, c4]⟩
      obtain ⟨s6, e6, c6⟩ :
          ∃ s', claude_deep_researcher.runTrace cfg o topic 6 =
              .ok (.summarize_sources, s', [.START, .generate_query, .web_research, .summarize_sources, .reflect_on_summary, .web_research, .summarize_sources])
            ∧ s'.research_loop_count = 2 :=
        ⟨_, by
          rw [show (6 : Nat) = 5 + 1 from rfl, runTrace_succ, e5]
          rfl, by
          simp [mergeUpdate_count, claude_deep_researcher.web_research, c5]⟩
      obtain ⟨s7, e7, c7⟩ :
          ∃ s', claude_deep_researcher.runTrace cfg o topic 7 =
              .ok (.reflect_on_summary, s', [.START, .generate_query, .web_research, .summarize_sources, .reflect_on_summary, .web_research, .summarize_sources, .reflect_on_summary])
            ∧ s'.research_loop_count = 2 :=
        ⟨_, by
          rw [show (7 : Nat) = 6 + 1 from rfl, runTrace_succ, e6]
          rfl, by
          simp [mergeUpdate_count, claude_deep_researcher.summarize_sources, c6]⟩
      have hr8 : claude_deep_researcher.route_research
          (claude_deep_researcher.mergeUpdate s7
            (claude_deep_researcher.reflect_on_summary s7.research_topic
              (o.reflReply s7.research_loop_count))) cfg = "web_research" := by
        unfold claude_deep_researcher.route_research
        rw [mergeUpdate_count, (reflect_on_summary_fields _ _).1, c7, hmax]
        decide
      obtain ⟨s8, e8, c8⟩ :
          ∃ s', claude_deep_researcher.runTrace cfg o topic 8 =
              .ok (.web_research, s', [.START, .generate_query, .web_research, .summarize_sources, .reflect_on_summary, .web_research, .summarize_sources, .reflect_on_summary, .web_research])
            ∧ s'.research_loop_count = 2 :=
        ⟨_, by
          rw [show (8 : Nat) = 7 + 1 from rfl, runTrace_succ, e7]
          dsimp only [claude_deep_researcher.stepGraph]
          rw [hr8]
          rfl, by
          simp [mergeUpdate_count, (reflect_on_summary_fields _ _).1, c7]⟩
      obtain ⟨s9, e9, c9⟩ :
          ∃ s', claude_deep_researcher.runTrace cfg o topic 9 =
              .ok (.summarize_sources, s', [.START, .generate_query, .web_research, .summarize_sources, .reflect_on_summary, .web_research, .summarize_sources, .reflect_on_summary, .web_research, .summarize_sources])
            ∧ s'.research_loop_count = 3 :=
        ⟨_, by
          rw [show (9 : Nat) = 8 + 1 from rfl, runTrace_succ, e8]
          rfl, by
          simp [mergeUpdate_count, claude_deep_researcher.web_research, c8]⟩
      obtain ⟨s10, e10, c10⟩ :
          ∃ s', claude_deep_researcher.runTrace cfg o topic 10 =
              .ok (.reflect_on_summary, s', [.START, .generate_query, .web_research, .summarize_sources, .reflect_on_summary, .web_research, .summarize_sources, .reflect_on_summary, .web_research, .summarize_sources, .reflect_on_summary])
            ∧ s'.research_loop_count = 3 :=
        ⟨_, by
          rw [show (10 : Nat) = 9 + 1 from rfl, runTrace_succ, e9]
          rfl, by
          simp [mergeUpdate_count, claude_deep_researcher.summarize_sources, c9]⟩
      have hr11 : claude_deep_researcher.route_research
          (claude_deep_researcher.mergeUpdate s10
            (claude_deep_researcher.reflect_on_summary s10.research_topic
              (o.reflReply s10.research_loop_count))) cfg = "web_research" := by
        unfold claude_deep_researcher.route_research
        rw [mergeUpdate_count, (reflect_on_summary_fields _ _).1, c10, hmax]
        decide
      obtain ⟨s11, e11, c11⟩ :
          ∃ s', claude_deep_researcher.runTrace cfg o topic 11 =
              .ok (.web_research, s', [.START, .generate_query, .web_research, .summarize_sources, .reflect_on_summary, .web_research, .summarize_sources, .reflect_on_summary, .web_research, .summarize_sources, .reflect_on_summary, .web_research])
            ∧ s'.research_loop_count = 3 :=
        ⟨_, by
          rw [show (11 : Nat) = 10 + 1 from rfl, runTrace_succ, e10]
          dsimp only [claude_deep_researcher.stepGraph]
          rw [hr11]
          rfl, by
          simp [mergeUpdate_count, (reflect_on_summary_fields _ _).1, c10]⟩
      obtain ⟨s12, e12, c12⟩ :
          ∃ s', claude_deep_researcher.runTrace cfg o topic 12 =
              .ok (.summarize_sources, s', [.START, .generate_query, .web_research, .summarize_sources, .reflect_on_summary, .web_research, .summarize_sources, .reflect_on_summary, .web_research, .summarize_sources, .reflect_on_summary, .web_research, .summarize_sources])
            ∧ s'.research_loop_count = 4 :=
        ⟨_, by
          rw [show (12 : Nat) = 11 + 1 from rfl, runTrace_succ, e11]
          rfl, by
          simp [mergeUpdate_count, claude_deep_researcher.web_research, c11]⟩
      obtain ⟨s13, e13, c13⟩ :
          ∃ s', claude_deep_researcher.runTrace cfg o topic 13 =
              .ok (.reflect_on_summary, s', [.START, .generate_query, .web_research, .summarize_sources, .reflect_on_summary, .web_research, .summarize_sources, .reflect_on_summary, .web_research, .summarize_sources, .reflect_on_summary, .web_research, .summarize_sources, .reflect_on_summary])
            ∧ s'.research_loop_count = 4 :=
        ⟨_, by
          rw [show (13 : Nat) = 12 + 1 from rfl, runTrace_succ, e12]
          rfl, by
          simp [mergeUpdate_count, claude_deep_researcher.summarize_sources, c12]⟩
      have hr14 : claude_deep_researcher.route_research
          (claude_deep_researcher.mergeUpdate s13
            (claude_deep_researcher.reflect_on_summary s13.research_topic
              (o.reflReply s13.research_loop_count))) cfg = "finalize_summary" := by
        unfold claude_deep_researcher.route_research
        rw [mergeUpdate_count, (reflect_on_summary_fields _ _).1, c13, hmax]
        decide
      obtain ⟨s14, e14, c14⟩ :
          ∃ s', claude_deep_researcher.runTrace cfg o topic 14 =
              .ok (.finalize_summary, s', [.START, .generate_query, .web_research, .summarize_sources, .reflect_on_summary, .web_research, .summarize_sources, .reflect_on_summary, .web_research, .summarize_sources, .reflect_on_summary, .web_research, .summarize_sources, .reflect_on_summary, .finalize_summary])
            ∧ s'.research_loop_count = 4 :=
        ⟨_, by
          rw [show (14 : Nat) = 13 + 1 from rfl, runTrace_succ, e13]
          dsimp only [claude_deep_researcher.stepGraph]
          rw [hr14]
          rfl, by
          simp [mergeUpdate_count, (reflect_on_summary_fields _ _).1, c13]⟩
      obtain ⟨s15, e15, c15⟩ :
          ∃ s', claude_deep_researcher.runTrace cfg o topic 15 =
              .ok (.END, s', [.START, .generate_query, .web_research, .summarize_sources, .reflect_on_summary, .web_research, .summarize_sources, .reflect_on_summary, .web_research, .summarize_sources, .reflect_on_summary, .web_research, .summarize_sources, .reflect_on_summary, .finalize_summary, .END])
            ∧ s'.research_loop_count = 4 :=
        ⟨_, by
          rw [show (15 : Nat) = 14 + 1 from rfl, runTrace_succ, e14]
          rfl, by
          simp [mergeUpdate_count, c14]⟩
      rw [e15] at h
      cases h
      exact ⟨rfl, rfl, by decide, c15⟩

/-- A concrete oracle: a plain-text query reply and constant search/summary
replies. -/
def oracleW : claude_deep_researcher.Oracle :=
  ⟨"find me sources", fun _ => "* T : url", fun _ => "ctx", fun _ => "sum",
    fun _ => "refl"⟩

def runW : Except PyErr (claude_deep_researcher.Node ×
    claude_deep_researcher.SummaryState × List claude_deep_researcher.Node) :=
  claude_deep_researcher.runTrace {} oracleW "t" 15

def nodeW : claude_deep_researcher.Node :=
  match runW with
  | .ok (nd, _, _) => nd
  | .error _ => .START

def stateW : claude_deep_researcher.SummaryState :=
  match runW with
  | .ok (_, st, _) => st
  | .error _ => {}

def traceW : List claude_deep_researcher.Node :=
  match runW with
  | .ok (_, _, tr) => tr
  | .error _ => []

/-- C1 witness: a concrete default-budget run enters `web_research` exactly
four times and ends after `finalize_summary`. -/
theorem C1_route_research_loop_budget_witness :
    nodeW = .END ∧ traceW = expectedTrace
      ∧ traceW.count .web_research = 4 ∧ stateW.research_loop_count = 4 :=
  C1_route_research_loop_budget.2 {} oracleW "t" nodeW stateW traceW rfl rfl

/-- C5 witness: the invariant holds in the concrete run's final state. -/
theorem C5_sources_match_loop_count_witness :
    stateW.sources_gathered.length = stateW.research_loop_count :=
  C5_sources_match_loop_count.1 {} oracleW "t" 15 nodeW stateW traceW rfl
